import Mathlib

/-!
Verification of the dataset-loading module `TempoTokens/utils/dataset.py`.

The Python source is shallowly embedded: pure index/length computations become
Lean functions on `Nat`/`Int`; Python `range`, list slicing, `str.replace`,
`str.endswith`, file-system lookups, and the retry loop of
`VideoFolderDataset.__getitem__` are modelled by executable Lean definitions
that mirror the source line by line.  Fallible Python code (exceptions) is
modelled with `Option`/`Except`.
-/

namespace TempoTokensDataset

/-! ## Python primitives -/

/-- Python `range(start, stop, step)` for `step ≥ 1`: the arithmetic
progression `start, start+step, ...` strictly below `stop`. -/
def pythonRange (start stop step : Nat) : List Nat :=
  List.range' start ((stop - start + step - 1) / step) step

/-- Python slice length `len(xs[start:stop])` for a sequence of length `len`
and `0 ≤ start ≤ stop` (both clamped to the sequence length). -/
def pySliceLen (len start stop : Nat) : Nat :=
  min stop len - min start len

/-- The middle element of `sorted((a, b, c))`. -/
def sorted_mid (a b c : Int) : Int :=
  max (min a b) (min (max a b) c)

/-! ## `get_video_frames` (dataset.py lines 73-80)

`max_range = len(vr)`; `frame_number = sorted((0, start_idx, max_range))[1]`;
`frame_range = range(frame_number, max_range, sample_rate)`;
`frame_range_indices = list(frame_range)[:max_frames]`. -/

/-- `sorted((0, start_idx, max_range))[1]`, converted to `Nat` (it is
nonnegative because `0` and `max_range` are). -/
def frame_number_of (start_idx : Int) (max_range : Nat) : Nat :=
  (sorted_mid 0 start_idx (max_range : Int)).toNat

/-- `get_video_frames(vr, start_idx, sample_rate, max_frames)` where the video
reader `vr` is represented by its length `max_range = len(vr)`. -/
def get_video_frames (max_range : Nat) (start_idx : Int)
    (sample_rate : Nat) (max_frames : Nat) : List Nat :=
  (pythonRange (frame_number_of start_idx max_range) max_range sample_rate).take max_frames

/-! ## Helper lemmas about `pythonRange` -/

theorem take_range'_eq (step : Nat) :
    ∀ (c n s : Nat), (List.range' s c step).take n = List.range' s (min n c) step := by
  intro c
  induction c with
  | zero => intro n s; simp
  | succ c ih =>
    intro n s
    cases n with
    | zero => simp
    | succ n =>
      rw [List.range'_succ, List.take_succ_cons, ih, Nat.succ_min_succ, List.range'_succ]

theorem pythonRange_count_ge (f L s n : Nat) (hs : 1 ≤ s) (hn : 1 ≤ n)
    (hfit : f + (n - 1) * s < L) : n ≤ (L - f + s - 1) / s := by
  rw [Nat.le_div_iff_mul_le hs]
  cases n with
  | zero => omega
  | succ k =>
    rw [Nat.succ_mul]
    have hk : k + 1 - 1 = k := rfl
    rw [hk] at hfit
    omega

/-! ## `process_video` audio alignment (dataset.py lines 92-100)

`waveform = torch.tile(waveform, (1, 10))`;
`audio = waveform[:, :sample_rate * 10]`;
`start = int(sample_rate * (idxs[0])/30)`;
`end = start + int(len(idxs)/24 * sample_rate)`;
`audio = audio[:, start:end]`.
The `int(...)` of a float division of moderate-size integers is integer
(floor) division here, so it is modelled with `Nat` division. -/

/-- Number of samples of the audio window returned by `process_video`, given
the loaded waveform length, its sample rate, the first frame index `idxs[0]`
and the number of frame indices `len(idxs)`. -/
def process_video_audio_len (waveform_len sample_rate idx0 n_idxs : Nat) : Nat :=
  let tiled_len := waveform_len * 10
  let audio_len := min (sample_rate * 10) tiled_len
  let start := sample_rate * idx0 / 30
  let stop := start + n_idxs * sample_rate / 24
  pySliceLen audio_len start stop

/-! ## `VideoFolderDataset.get_frame_batch` (dataset.py lines 594-612)

`every_nth_frame = max(1, round((native_fps / self.fps) + 1e-5))`;
`every_nth_frame = min(len(vr), every_nth_frame)`;
`effective_length = len(vr) // every_nth_frame`;
`if effective_length < n_sample_frames: n_sample_frames = effective_length`;
`idxs = every_nth_frame * np.arange(effective_idx, effective_idx + n_sample_frames)`;
`if len(idxs) != n_sample_frames: idxs = np.tile(idxs, 10)[:n_sample_frames]`. -/

/-- `min(len(vr), max(1, round(native_fps / fps + 1e-5)))`.  The `+ 1e-5`
makes `round` on these magnitudes round half up, so the rounding is modelled
as `⌊(native_fps / fps) + 1/2⌋ = (2 * native_fps + fps) / (2 * fps)`. -/
def every_nth_frame (native_fps fps L : Nat) : Nat :=
  min L (max 1 ((2 * native_fps + fps) / (2 * fps)))

/-- `effective_length = len(vr) // every_nth_frame`. -/
def effective_length (native_fps fps L : Nat) : Nat :=
  L / every_nth_frame native_fps fps L

/-- The local reassignment
`if effective_length < n_sample_frames: n_sample_frames = effective_length`. -/
def shrink_n (native_fps fps L n : Nat) : Nat :=
  if effective_length native_fps fps L < n then effective_length native_fps fps L else n

/-- `idxs = every_nth_frame * np.arange(effective_idx, effective_idx + n_sample_frames)`
with the reassigned `n_sample_frames`. -/
def arange_idxs (native_fps fps L n effective_idx : Nat) : List Nat :=
  (List.range (shrink_n native_fps fps L n)).map
    (fun k => every_nth_frame native_fps fps L * (effective_idx + k))

/-- The final `idxs` of `get_frame_batch`, including the
`if len(idxs) != n_sample_frames: idxs = np.tile(idxs, 10)[:n_sample_frames]`
branch. -/
def frame_batch_idxs (native_fps fps L n effective_idx : Nat) : List Nat :=
  let idxs := arange_idxs native_fps fps L n effective_idx
  if idxs.length ≠ shrink_n native_fps fps L n then
    ((List.replicate 10 idxs).flatten).take (shrink_n native_fps fps L n)
  else idxs

/-- Shared evaluation lemma: the `np.arange` call always produces exactly the
(possibly shrunk) `n_sample_frames` indices, so the tiling branch of
`get_frame_batch` is never taken. -/
theorem frame_batch_idxs_eq (native_fps fps L n e : Nat) :
    (arange_idxs native_fps fps L n e).length = shrink_n native_fps fps L n ∧
    frame_batch_idxs native_fps fps L n e = arange_idxs native_fps fps L n e := by
  have hlen : (arange_idxs native_fps fps L n e).length = shrink_n native_fps fps L n := by
    simp [arange_idxs]
  refine ⟨hlen, ?_⟩
  simp [frame_batch_idxs, hlen]

/-! ## `SingleVideoDataset.create_video_chunks` (dataset.py lines 314-333)

`vr_range = range(1, len(vr), self.frame_step)`;
`self.frames = list(self.chunk(vr_range, self.n_sample_frames))`;
then a deletion loop
`for i, inner_frame_nums in enumerate(self.frames): for frame_num in
inner_frame_nums: if frame_num > len(vr): del self.frames[i]`.
The deletion loop mutates the list while `enumerate` walks it by position;
`del self.frames[i]` raises `IndexError` when `i` is out of range of the
shrunken list.  `none` models an uncaught exception. -/

/-- `itertools`-style chunking `self.chunk(it, size)` with enough fuel
(structural recursion on fuel; `fuel = length of the list` suffices because
each step consumes at least one element when `size ≥ 1`). -/
def chunk_go (size : Nat) : Nat → List Nat → List (List Nat)
  | 0, _ => []
  | _ + 1, [] => []
  | fuel + 1, x :: xs => (x :: xs).take size :: chunk_go size fuel ((x :: xs).drop size)

/-- The inner `for frame_num in inner_frame_nums` loop: `inner` was captured
when position `i` was fetched, and each out-of-range frame executes
`del self.frames[i]` again (raising `IndexError`, modelled `none`, if `i` no
longer indexes the shrunken list). -/
def delete_inner (L : Nat) (frames : List (List Nat)) (i : Nat) :
    List Nat → Option (List (List Nat))
  | [] => some frames
  | f :: rest =>
    if L < f then
      if i < frames.length then delete_inner L (frames.eraseIdx i) i rest
      else none
    else delete_inner L frames i rest

/-- The outer `for i, inner_frame_nums in enumerate(self.frames)` loop:
`enumerate` over a list being mutated stops as soon as the position runs past
the current length.  Fuel equal to the initial length is exact: positions only
move forward and the list never grows. -/
def delete_pass_go (L : Nat) : Nat → List (List Nat) → Nat → Option (List (List Nat))
  | 0, frames, _ => some frames
  | fuel + 1, frames, i =>
    if h : i < frames.length then
      match delete_inner L frames i (frames.get ⟨i, h⟩) with
      | none => none
      | some frames2 => delete_pass_go L fuel frames2 (i + 1)
    else some frames

/-- The whole deletion loop of `create_video_chunks`. -/
def delete_pass (L : Nat) (frames : List (List Nat)) : Option (List (List Nat)) :=
  delete_pass_go L frames.length frames 0

/-- `create_video_chunks` for a video of length `L = len(vr)`:
chunks of `range(1, L, frame_step)` of size `n_sample_frames`, then the
deletion loop.  (`islice` with size 0 immediately yields the empty sentinel,
giving an empty chunk list.) -/
def create_video_chunks (L frame_step n_sample_frames : Nat) : Option (List (List Nat)) :=
  let vr_range := pythonRange 1 L frame_step
  let frames := if n_sample_frames = 0 then [] else chunk_go n_sample_frames vr_range.length vr_range
  delete_pass L frames

/-! ## `VideoJsonDataset` manifest loading (dataset.py lines 136-168, 259-263) -/

/-- One entry of a group's nested `data` list in the JSON manifest. -/
structure ClipData where
  frame_index : Nat
  prompt : String
  clip_path : Option String

/-- One top-level group of the JSON manifest's `data` list. -/
structure GroupData where
  video_path : String
  clips : List ClipData

/-- The parsed JSON manifest: `json_data['data']`. -/
structure Manifest where
  data : List GroupData

/-- One flattened training record appended by `build_json_dict`. -/
structure TrainItem where
  video_path : String
  frame_index : Nat
  prompt : String
  clip_path : Option String

/-- `build_json_dict(data, nested_data, extended_data)`: the record appended
for one clip of one group. -/
def build_json_dict (g : GroupData) (c : ClipData) : TrainItem :=
  ⟨g.video_path, c.frame_index, c.prompt, c.clip_path⟩

/-- `build_json`: the nested `for data in json_data['data']: for nested_data
in data['data']` flattening. -/
def build_json (m : Manifest) : List TrainItem :=
  (m.data.map (fun g => g.clips.map (build_json_dict g))).flatten

/-- `load_from_json(path, json_data)`: a missing/unreadable/bad manifest is
any failure of `open`/`json.load`/`build_json`, all caught by the bare
`except`, which prints and falls off the end of the function — so the method
returns Python `None` (the inner `self.train_data = []` is immediately
overwritten by `self.train_data = self.load_from_json(...)` in `__init__`).
The input `none` stands for any such failed load. -/
def load_from_json (file : Option Manifest) : Option (List TrainItem) :=
  match file with
  | some m => some (build_json m)
  | none => none

/-- `VideoJsonDataset.__len__`: `len(self.train_data)` when `train_data` is
not `None`, else `0`. -/
def video_json_len (train_data : Option (List TrainItem)) : Nat :=
  match train_data with
  | some l => l.length
  | none => 0

/-! ## `VideoFolderDataset` expected shapes (dataset.py lines 646-650) -/

/-- The constructor state of `VideoFolderDataset` that the shape methods can
see (`self.width`, `self.height`, `self.n_sample_frames`, `self.fps`). -/
structure VideoFolderState where
  width : Nat
  height : Nat
  n_sample_frames : Nat
  fps : Nat

/-- `get_video_shape`: `torch.Size([self.n_sample_frames, 3, 256, 384])`. -/
def get_video_shape (s : VideoFolderState) : List Nat :=
  [s.n_sample_frames, 3, 256, 384]

/-- `get_audio_shape`: `torch.Size([1, int(16000 * (self.n_sample_frames/self.fps))])`
(`int` of the float quotient is floor division at these magnitudes). -/
def get_audio_shape (s : VideoFolderState) : List Nat :=
  [1, 16000 * s.n_sample_frames / s.fps]

/-! ## `VideoFolderDataset.__getitem__` retry loop (dataset.py lines 652-663)

`while True: try: ...fetch and shape asserts...; valid_videos.add(index);
break; except: index = random.choice(list(self.valid_videos))`.
`fetch index = none` models any exception or failed assert for that index;
`choose` models `random.choice` on a nonempty list; `random.choice` on the
empty list raises `IndexError` inside the `except:` handler, where nothing
catches it. -/

/-- Outcome of the `__getitem__` retry loop. -/
inductive GetItemResult (α : Type) where
  | ok (item : α) (valid : List Nat)
  | indexError
  | fuelOut
deriving DecidableEq

/-- `self.valid_videos.add(index)` on a set represented as a duplicate-free
list. -/
def add_valid (valid : List Nat) (index : Nat) : List Nat :=
  if index ∈ valid then valid else valid ++ [index]

/-- The `while True` retry loop, run for at most `fuel` iterations
(`.fuelOut` is the model artifact for exceeding the budget). -/
def getitem_loop {α : Type} (fetch : Nat → Option α) (choose : List Nat → Nat) :
    Nat → List Nat → Nat → GetItemResult α
  | 0, _, _ => .fuelOut
  | fuel + 1, valid, index =>
    match fetch index with
    | some item => .ok item (add_valid valid index)
    | none =>
      match valid with
      | [] => .indexError
      | _ :: _ => getitem_loop fetch choose fuel valid (choose valid)

/-! ## String primitives and the file system model (for caption resolution)

The file system is a list of `(path, contents)` pairs; `contents = none`
means the path exists but opening/decoding it raises (I/O or decode error).
Python string methods are modelled on `List Char` to keep everything
kernel-executable. -/

/-- A file system: paths with readable contents (`some`) or contents whose
read raises (`none`). -/
abbrev FS := List (String × Option String)

/-- `os.path.exists(p)` — `False` for the empty path (Python returns `False`
on `''`), otherwise presence in the file system. -/
def os_path_exists (fs : FS) (p : String) : Bool :=
  p ≠ "" && (fs.lookup p).isSome

/-- Reading a file: `none` when the path is absent (`FileNotFoundError`) or
its contents are unreadable (decode error). -/
def read_file (fs : FS) (p : String) : Option String :=
  (fs.lookup p).join

/-- Python `s.replace(pat, rep)` on character lists: replace every
non-overlapping occurrence, left to right.  Fuel equal to `s.length`
suffices since each step consumes at least one character. -/
def str_replace_go (pat rep : List Char) : Nat → List Char → List Char
  | 0, s => s
  | _ + 1, [] => []
  | fuel + 1, c :: rest =>
    if pat.isPrefixOf (c :: rest) then
      rep ++ str_replace_go pat rep fuel ((c :: rest).drop pat.length)
    else c :: str_replace_go pat rep fuel rest

/-- Python `s.replace(pat, rep)` for a nonempty pattern (the callers only
pass extensions such as `".mp4"`). -/
def py_replace (s pat rep : String) : String :=
  if pat.data.isEmpty then s
  else String.mk (str_replace_go pat.data rep.data s.data.length s.data)

/-- Python `s.endswith(suffix)`. -/
def py_endswith (s suffix : String) : Bool :=
  suffix.data.isSuffixOf s.data

/-- Python `s.endswith(tuple(exts))`. -/
def ends_with_any (s : String) (exts : List String) : Bool :=
  exts.any (fun e => py_endswith s e)

/-! ## `get_text_prompt` (dataset.py lines 42-70) -/

/-- The `for ext in ext_types` search loop of `get_text_prompt`:
`maybe_file = file_path.replace(ext, '.txt')`; skip it when it still ends
with one of the extensions; on the first existing candidate set
`caption_file` and `break`; `caption_file` stays `''` when none is found. -/
def find_caption_file_go (fs : FS) (file_path : String) (ext_types : List String) :
    List String → String
  | [] => ""
  | ext :: rest =>
    let maybe_file := py_replace file_path ext ".txt"
    if ends_with_any maybe_file ext_types then find_caption_file_go fs file_path ext_types rest
    else if os_path_exists fs maybe_file then maybe_file
    else find_caption_file_go fs file_path ext_types rest

/-- The full caption-file search of `get_text_prompt`. -/
def find_caption_file (fs : FS) (file_path : String) (ext_types : List String) : String :=
  find_caption_file_go fs file_path ext_types ext_types

/-- The `try:` body of `get_text_prompt`.  `.error ()` marks the only
raising operation in it: `read_caption_file` on an unreadable file.  Note the
guard on the explicit prompt is `len(text_prompt) > 1`, not nonemptiness. -/
def get_text_prompt_body (text_prompt fallback_prompt file_path : String)
    (ext_types : List String) (use_caption : Bool) (fs : FS) : Except Unit String :=
  if use_caption then
    if 1 < text_prompt.length then .ok text_prompt
    else
      let caption_file := find_caption_file fs file_path ext_types
      if os_path_exists fs caption_file then
        match read_file fs caption_file with
        | some contents => .ok contents
        | none => .error ()
      else .ok fallback_prompt
  else .ok text_prompt

/-- `get_text_prompt`: the `try:` body with the bare `except:` handler that
prints a warning and returns the fallback prompt. -/
def get_text_prompt (text_prompt fallback_prompt file_path : String)
    (ext_types : List String) (use_caption : Bool) (fs : FS) : String :=
  match get_text_prompt_body text_prompt fallback_prompt file_path ext_types use_caption fs with
  | .ok s => s
  | .error _ => fallback_prompt

/-! ## `VideoFolderDataset.__getitem__` caption read (dataset.py lines 667-671)

`if os.path.exists(...'.txt'): with open(...) as f: prompt = f.read()
else: prompt = self.fallback_prompt` — with no `try`/`except` around it, so a
read failure propagates (`.error ()`). -/

/-- The sidecar-caption resolution inlined in `VideoFolderDataset.__getitem__`. -/
def folder_prompt (fs : FS) (video_file fallback_prompt : String) : Except Unit String :=
  let txt := py_replace video_file ".mp4" ".txt"
  if os_path_exists fs txt then
    match read_file fs txt with
    | some contents => .ok contents
    | none => .error ()
  else .ok fallback_prompt

/-! # Claims -/

/-- C2 counterexample: with `L = 10`, `n = 4`, `s = 1` and starting offset
`9`, `get_video_frames` returns a single index, not the claimed `n = 4`,
even though `n ≤ L`. -/
theorem get_video_frames_counterexample :
    4 ≤ 10 ∧ (get_video_frames 10 9 1 4).length = 1 ∧
    (get_video_frames 10 9 1 4).length ≠ 4 := by
  decide

/-- C2 (amended): for `s ≥ 1` and `n ≥ 1`, whenever the clamped starting
offset leaves room for the full window (`frame_number + (n-1)·s < L`),
`get_video_frames` returns exactly `n` strictly increasing indices within
`[0, L)`.  Without the window-fit condition the count can fall short. -/
theorem get_video_frames_spec (L n s : Nat) (start_idx : Int)
    (hs : 1 ≤ s) (hn : 1 ≤ n)
    (hfit : frame_number_of start_idx L + (n - 1) * s < L) :
    (get_video_frames L start_idx s n).length = n ∧
    List.Pairwise (fun a b => a < b) (get_video_frames L start_idx s n) ∧
    ∀ x ∈ get_video_frames L start_idx s n, x < L := by
  set f := frame_number_of start_idx L with hf
  have hcount := pythonRange_count_ge f L s n hs hn hfit
  have hgv : get_video_frames L start_idx s n = List.range' f n s := by
    rw [get_video_frames, ← hf, pythonRange, take_range'_eq, Nat.min_eq_left hcount]
  refine ⟨?_, ?_, ?_⟩
  · rw [hgv, List.length_range']
  · rw [hgv]
    exact List.pairwise_lt_range' f n s (by omega)
  · intro x hx
    rw [hgv] at hx
    rcases List.mem_range'.1 hx with ⟨i, hi, rfl⟩
    have h1 : s * i ≤ s * (n - 1) := Nat.mul_le_mul_left s (by omega)
    have h2 : s * (n - 1) = (n - 1) * s := Nat.mul_comm s (n - 1)
    omega

/-- C2 witness: `L = 10`, `n = 4`, `s = 1`, offset `0`. -/
theorem get_video_frames_spec_witness :
    (get_video_frames 10 0 1 4).length = 4 ∧
    List.Pairwise (fun a b => a < b) (get_video_frames 10 0 1 4) ∧
    ∀ x ∈ get_video_frames 10 0 1 4, x < 10 :=
  get_video_frames_spec 10 4 1 0 (by decide) (by decide) (by decide)

/-- C3 counterexample: a 1-second 16000 Hz waveform tiled ×10 and a 24-frame
window starting at frame 276 (a valid window of a 10-second 30 fps video):
the slice runs past the 10-second audio buffer and is truncated to 12800
samples, not the claimed `int(24/24 · 16000) = 16000`. -/
theorem audio_window_counterexample :
    process_video_audio_len 16000 16000 276 24 = 12800 ∧
    (12800 : Nat) ≠ 24 * 16000 / 24 := by
  decide

/-- C3 (amended): for a 1-second 16000 Hz waveform tiled ×10 and a 24-frame
window, the returned audio window has exactly `int(24/24 · 16000) = 16000`
samples provided the derived start `int(16000 · idxs[0] / 30)` leaves the
whole window inside the 10-second buffer, i.e. `idxs[0] ≤ 270`; beyond that
the slice is truncated. -/
theorem audio_window_exact (idx0 : Nat) (h : idx0 ≤ 270) :
    process_video_audio_len 16000 16000 idx0 24 = 24 * 16000 / 24 := by
  have h1 : 16000 * idx0 ≤ 16000 * 270 := Nat.mul_le_mul_left 16000 h
  have h2 : 16000 * idx0 / 30 ≤ 16000 * 270 / 30 := Nat.div_le_div_right h1
  simp only [process_video_audio_len, pySliceLen]
  omega

/-- C3 witness: window starting at frame 0. -/
theorem audio_window_exact_witness :
    (0 : Nat) ≤ 270 ∧ process_video_audio_len 16000 16000 0 24 = 24 * 16000 / 24 :=
  ⟨by decide, audio_window_exact 0 (by decide)⟩

/-- C4: rate-based frame selection: `every_nth = round(native_fps/target_fps)`
clamped into `[1, L]` (for `L ≥ 1`); usable length `L // every_nth`; `n`
shrunk to the usable length when smaller.  For `native_fps = 30`,
`target_fps = 10`, `L = 300`, `n = 24`: `every_nth = 3`, usable length `100`,
and for every start `e` the `random.randint(0, 23)` call can produce, the
selector returns 24 indices spaced by 3, all within `[0, 300)`. -/
theorem frame_batch_300 :
    every_nth_frame 30 10 300 = 3 ∧
    effective_length 30 10 300 = 100 ∧
    shrink_n 30 10 300 24 = 24 ∧
    (∀ native fps L, 1 ≤ L →
      1 ≤ every_nth_frame native fps L ∧ every_nth_frame native fps L ≤ L) ∧
    (∀ e, e ≤ 23 →
      frame_batch_idxs 30 10 300 24 e = (List.range 24).map (fun k => 3 * (e + k)) ∧
      (frame_batch_idxs 30 10 300 24 e).length = 24 ∧
      ∀ x ∈ frame_batch_idxs 30 10 300 24 e, x < 300) := by
  refine ⟨by decide, by decide, by decide, ?_, ?_⟩
  · intro native fps L hL
    unfold every_nth_frame
    generalize (2 * native + fps) / (2 * fps) = r
    omega
  · intro e he
    have harange : arange_idxs 30 10 300 24 e = (List.range 24).map (fun k => 3 * (e + k)) := by
      have h3 : every_nth_frame 30 10 300 = 3 := by decide
      have h24 : shrink_n 30 10 300 24 = 24 := by decide
      rw [arange_idxs, h24, h3]
    have heq := (frame_batch_idxs_eq 30 10 300 24 e).2
    refine ⟨by rw [heq, harange], by rw [heq, harange]; simp, ?_⟩
    intro x hx
    rw [heq, harange] at hx
    rcases List.mem_map.1 hx with ⟨k, hk, rfl⟩
    have hk24 : k < 24 := List.mem_range.1 hk
    omega

/-- C4 witness: start `e = 5` and the clamp property at `(30, 10, 300)`. -/
theorem frame_batch_300_witness :
    (frame_batch_idxs 30 10 300 24 5).length = 24 ∧
    every_nth_frame 30 10 300 ≤ 300 :=
  ⟨(frame_batch_300.2.2.2.2 5 (by decide)).2.1,
   (frame_batch_300.2.2.2.1 30 10 300 (by decide)).2⟩

/-- C10: the `np.arange` call of `get_frame_batch` always yields exactly the
(possibly shrunk) `n_sample_frames` indices, so `len(idxs) != n_sample_frames`
is never true and the cyclic-tiling branch is unreachable for every video
length, fps, requested count and start. -/
theorem arange_tile_branch_unreachable (native fps L n e : Nat) :
    (arange_idxs native fps L n e).length = shrink_n native fps L n ∧
    frame_batch_idxs native fps L n e = arange_idxs native fps L n e :=
  frame_batch_idxs_eq native fps L n e

/-- C6: `create_video_chunks` for a source of length 10, frame step 1 and
chunk size 4 yields exactly `[(1,2,3,4), (5,6,7,8), (9,)]`; and a chunk
containing an out-of-range frame index is removed whole by the deletion loop
(`[[1,2],[11,3],[5]]` becomes `[[1,2],[5]]`), not truncated to `[3]`. -/
theorem create_video_chunks_spec :
    create_video_chunks 10 1 4 = some [[1, 2, 3, 4], [5, 6, 7, 8], [9]] ∧
    delete_pass 10 [[1, 2], [11, 3], [5]] = some [[1, 2], [5]] ∧
    delete_pass 10 [[1, 2], [11, 3], [5]] ≠ some [[1, 2], [3], [5]] := by
  decide

/-- C7: when the JSON manifest is missing or unreadable, `load_from_json`
returns Python `None` (its `except` branch falls off the end), and
`__len__` then reports 0 items. -/
theorem json_missing_len_zero :
    load_from_json none = none ∧ video_json_len (load_from_json none) = 0 :=
  ⟨rfl, rfl⟩

/-- C9: the shapes `VideoFolderDataset.__getitem__` validates against are
constants in the configured width and height: the video shape is always
`[n_sample_frames, 3, 256, 384]` and the audio shape always
`[1, int(16000 · n_sample_frames / fps)]`, for any two width/height
configurations. -/
theorem folder_shapes_constant (w h w2 h2 n fps : Nat) :
    get_video_shape ⟨w, h, n, fps⟩ = [n, 3, 256, 384] ∧
    get_audio_shape ⟨w, h, n, fps⟩ = [1, 16000 * n / fps] ∧
    get_video_shape ⟨w, h, n, fps⟩ = get_video_shape ⟨w2, h2, n, fps⟩ ∧
    get_audio_shape ⟨w, h, n, fps⟩ = get_audio_shape ⟨w2, h2, n, fps⟩ :=
  ⟨rfl, rfl, rfl, rfl⟩

/-- C1 counterexample: with an empty set of previously-successful indices and
a fetch that fails, the loop does not retry unboundedly: already with retry
budget 5 the very first failure makes `random.choice` raise `IndexError` on
the empty list, and that error propagates to the caller. -/
theorem getitem_empty_valid_counterexample :
    getitem_loop (fun _ => (none : Option Nat)) (fun _ => 0) 5 [] 0 =
      GetItemResult.indexError := by
  decide

/-- C1 (amended): if fetching the requested item fails while no index has
ever succeeded, the `except:` handler's `random.choice` on the empty list of
previously-successful indices itself raises `IndexError`, which nothing
catches: the call terminates by propagating that error to the caller (for any
retry budget ≥ 1), rather than looping forever. -/
theorem getitem_empty_valid_raises {α : Type} (fetch : Nat → Option α)
    (choose : List Nat → Nat) (fuel index : Nat)
    (hfuel : 1 ≤ fuel) (hfail : fetch index = none) :
    getitem_loop fetch choose fuel [] index = GetItemResult.indexError := by
  cases fuel with
  | zero => omega
  | succ fuel => simp [getitem_loop, hfail]

/-- C1 witness: budget 3, failing fetch at index 7. -/
theorem getitem_empty_valid_raises_witness :
    getitem_loop (fun _ => (none : Option Nat)) (fun _ => 1) 3 [] 7 =
      GetItemResult.indexError :=
  getitem_empty_valid_raises (fun _ => none) (fun _ => 1) 3 7 (by decide) rfl

/-- C5 counterexample: a supplied one-character explicit prompt `"a"` is not
preferred: with a sidecar present, `get_text_prompt` returns the sidecar
content because its guard is `len(text_prompt) > 1`. -/
theorem prompt_priority_counterexample :
    get_text_prompt "a" "fb" "video.mp4" [".mp4"] true
        [("video.txt", some "sidecar")] = "sidecar" ∧
    get_text_prompt "a" "fb" "video.mp4" [".mp4"] true
        [("video.txt", some "sidecar")] ≠ "a" := by
  decide

/-- C5 (amended): caption resolution with `use_caption` follows the strict
priority: an explicit prompt of length at least 2 is preferred; otherwise
(including supplied prompts of length ≤ 1) the content of a sidecar text
file matching the media file's base name is returned; otherwise the
configured fallback string is returned. -/
theorem prompt_priority (prompt fallback c : String) :
    (2 ≤ prompt.length →
      get_text_prompt prompt fallback "video.mp4" [".mp4"] true
        [("video.txt", some c)] = prompt) ∧
    (prompt.length ≤ 1 →
      get_text_prompt prompt fallback "video.mp4" [".mp4"] true
        [("video.txt", some c)] = c) ∧
    (prompt.length ≤ 1 →
      get_text_prompt prompt fallback "video.mp4" [".mp4"] true [] = fallback) := by
  refine ⟨?_, ?_, ?_⟩
  · intro h
    have hgt : 1 < prompt.length := h
    have hbody : get_text_prompt_body prompt fallback "video.mp4" [".mp4"] true
        [("video.txt", some c)] = Except.ok prompt := by
      unfold get_text_prompt_body
      rw [if_pos hgt]
      rfl
    unfold get_text_prompt
    rw [hbody]
  · intro h
    have hle : ¬ (1 < prompt.length) := by omega
    have hbody : get_text_prompt_body prompt fallback "video.mp4" [".mp4"] true
        [("video.txt", some c)] = Except.ok c := by
      unfold get_text_prompt_body
      rw [if_neg hle]
      rfl
    unfold get_text_prompt
    rw [hbody]
  · intro h
    have hle : ¬ (1 < prompt.length) := by omega
    have hbody : get_text_prompt_body prompt fallback "video.mp4" [".mp4"] true [] =
        Except.ok fallback := by
      unfold get_text_prompt_body
      rw [if_neg hle]
      rfl
    unfold get_text_prompt
    rw [hbody]

/-- C5 witness: a long explicit prompt wins; with an empty prompt the sidecar
content wins; with a one-character prompt and no sidecar the fallback wins. -/
theorem prompt_priority_witness :
    get_text_prompt "an explicit prompt" "fb" "video.mp4" [".mp4"] true
        [("video.txt", some "sc")] = "an explicit prompt" ∧
    get_text_prompt "" "fb" "video.mp4" [".mp4"] true
        [("video.txt", some "sc")] = "sc" ∧
    get_text_prompt "x" "fb" "video.mp4" [".mp4"] true [] = "fb" :=
  ⟨(prompt_priority "an explicit prompt" "fb" "sc").1 (by decide),
   (prompt_priority "" "fb" "sc").2.1 (by decide),
   (prompt_priority "x" "fb" "sc").2.2 (by decide)⟩

/-- C8 counterexample: caption resolution does raise in one variant:
`VideoFolderDataset.__getitem__` reads the sidecar with no `try`/`except`,
so an existing-but-unreadable sidecar propagates the read error instead of
falling back. -/
theorem folder_caption_read_raises :
    folder_prompt [("v.txt", (none : Option String))] "v.mp4" "fb" =
      Except.error () := rfl

/-- C8 (amended): `get_text_prompt` itself never raises: whenever its `try:`
body fails (any read failure during caption lookup), the failure is swallowed
and the fallback prompt is returned.  The filtered-catalog variant's inline
sidecar read bypasses `get_text_prompt` and is not protected. -/
theorem get_text_prompt_never_raises (tp fb fp : String) (exts : List String)
    (uc : Bool) (fs : FS)
    (hfail : get_text_prompt_body tp fb fp exts uc fs = Except.error ()) :
    get_text_prompt tp fb fp exts uc fs = fb := by
  unfold get_text_prompt
  rw [hfail]

/-- C8 witness: an existing but unreadable sidecar makes the body fail, and
`get_text_prompt` returns the fallback. -/
theorem get_text_prompt_never_raises_witness :
    get_text_prompt_body "" "fb" "video.mp4" [".mp4"] true
        [("video.txt", none)] = Except.error () ∧
    get_text_prompt "" "fb" "video.mp4" [".mp4"] true
        [("video.txt", none)] = "fb" :=
  ⟨rfl, get_text_prompt_never_raises "" "fb" "video.mp4" [".mp4"] true
    [("video.txt", none)] rfl⟩

end TempoTokensDataset
